import Mathlib

/-!
Verification development for the tiktok-extract service.

The service is a Hono HTTP app with two mutating endpoints (`POST /caption`,
`POST /download`).  Two near-duplicate variants exist in the repository: the
tikwm-API variant (`src/unnamed/part_000`, modelled in full here) and the
yt-dlp variant (`src/api/src/index.ts`, whose `/download` handler is also
modelled since its behaviour differs there).  Effects are embedded
explicitly: outbound network calls become an event trace, the on-disk cache
becomes an association list threaded through the functions, the wall clock
(`Date.now()`) becomes a record of the timestamps each call site observes,
and fault injection for filesystem errors is explicit.
-/

namespace TiktokExtract

/-- An outbound call made while serving a request: a call to the extraction
provider (tikwm API / yt-dlp invocation), an HTTP fetch of media bytes, or a
call to the Whisper transcription worker. -/
inductive Event where
  | extractionCall (url : String)
  | mediaDownloadCall (url : String)
  | transcriptionCall
deriving DecidableEq, Repr

/-- Diagnostic log lines emitted by `downloadMedia` (`console.log` /
`console.warn` in the source). -/
inductive LogLine where
  | foundCached
  | savedToCache
  | failedToSaveToCache
deriving DecidableEq, Repr

/-- Character-list prefix test (the building block of regex literal
matching). -/
def listIsPrefixOf : List Char → List Char → Bool
  | [], _ => true
  | _ :: _, [] => false
  | a :: as, b :: bs => a == b && listIsPrefixOf as bs

/-- The source regex `TIKTOK_URL_PATTERN = /^https?:\/\/(www\.)?(tiktok\.com|vm\.tiktok\.com)/`.
The regex is anchored only at the start, so it accepts any string beginning
with an http or https scheme, an optional `www.` and one of the two host
literals. -/
def matchesTiktokPattern (s : String) : Bool :=
  let cs := s.toList
  let hostPart := fun (t : List Char) =>
    listIsPrefixOf "tiktok.com".toList t || listIsPrefixOf "vm.tiktok.com".toList t
  let afterScheme := fun (t : List Char) =>
    hostPart t || (listIsPrefixOf "www.".toList t && hostPart (t.drop 4))
  (listIsPrefixOf "http://".toList cs && afterScheme (cs.drop 7)) ||
  (listIsPrefixOf "https://".toList cs && afterScheme (cs.drop 8))

/-- The handlers' guard `!url || !TIKTOK_URL_PATTERN.test(url)`:
`url` is `undefined` when the JSON body has no `url` member (modelled as
`none`), and the empty string is falsy in JavaScript. -/
def urlMissingOrInvalid (urlOpt : Option String) : Bool :=
  match urlOpt with
  | none => true
  | some u => u = "" || !(matchesTiktokPattern u)

/-- The structured payload of a tikwm extraction response
(interface `TikwmVideoInfo`).  JavaScript string fields that may be absent
or empty are modelled as `String`, with `""` playing the role of every falsy
value. -/
structure TikwmVideoInfo where
  id : String
  title : String
  authorUniqueId : String
  authorNickname : String
  duration : Nat
  play : String
  music : String
  cover : String
  originCover : String
  wmplay : String
  hdplay : String
deriving DecidableEq, Repr

/-- Outcome of the single HTTP exchange `getVideoInfo` performs with the
tikwm API: whether the transport-level response was ok, its status code, and
the parsed `TikwmResponse` body (`code`, `msg`, `data`). -/
structure ExtractionEnv where
  respOk : Bool
  respStatus : Nat
  code : Int
  msg : String
  data : TikwmVideoInfo
deriving DecidableEq, Repr

/-- Errors raised by `getVideoInfo` (both are thrown as plain `Error`s in the
source, so the orchestrator's catch classifies them as generic failures). -/
inductive InfoError where
  | requestFailed (status : Nat)
  | apiError (msg : String)
deriving DecidableEq, Repr

/-- The helper `getVideoInfo`: issues exactly one call to the tikwm API, fails when the
HTTP response is not ok or when the body's `code` is nonzero, and otherwise
returns the `data` payload.  The outbound call is recorded unconditionally
because the fetch happens before either check. -/
def getVideoInfo (env : ExtractionEnv) (videoUrl : String) :
    Except InfoError TikwmVideoInfo × List Event :=
  if !env.respOk then
    (Except.error (InfoError.requestFailed env.respStatus), [Event.extractionCall videoUrl])
  else if env.code ≠ 0 then
    (Except.error (InfoError.apiError env.msg), [Event.extractionCall videoUrl])
  else
    (Except.ok env.data, [Event.extractionCall videoUrl])

/-- The on-disk cache directory: file name to byte content.  A prepended
entry shadows an older one, matching last-writer-wins overwrite. -/
abbrev CacheFs : Type := List (String × List Nat)

def cacheLookup (fs : CacheFs) (name : String) : Option (List Nat) :=
  match fs with
  | [] => none
  | (k, b) :: rest => if k = name then some b else cacheLookup rest name

def cacheStore (fs : CacheFs) (name : String) (bytes : List Nat) : CacheFs :=
  (name, bytes) :: fs

/-- The helper `getCacheKey` applies a SHA-256 hex digest to the raw URL string.  The
digest is modelled as an abstract deterministic, collision-free fingerprint;
the identity map serves as its executable stand-in. -/
def getCacheKey (url : String) : String := url

/-- Injected filesystem faults for one `downloadMedia` call: `accessFault`
makes `access(cachedFile)` throw a non-ENOENT error, `readFault` makes
`readFile` of an existing cache file throw, `writeFault` makes the cache
`writeFile` throw. -/
structure IoFaults where
  accessFault : Bool
  readFault : Bool
  writeFault : Bool
deriving DecidableEq, Repr

def noFaults : IoFaults := ⟨false, false, false⟩

/-- Environment for one `downloadMedia` call: the outcome of its internal
`getVideoInfo` call, the outcome of the media-bytes fetch (transport ok flag,
status, body), and injected filesystem faults. -/
structure DlEnv where
  info : ExtractionEnv
  fetchOk : Bool
  fetchStatus : Nat
  fetchBody : List Nat
  faults : IoFaults
deriving DecidableEq, Repr

/-- Distinct throw sites of `downloadMedia` (all are wrapped into a plain
`Error` with message prefix `Failed to download media:` in the source, so
the orchestrator treats every one of them as a generic failure). -/
inductive DlError where
  | extractionFailed (e : InfoError)
  | noDownloadUrl
  | downloadFailed (status : Nat)
deriving DecidableEq, Repr

/-- The record `downloadMedia` resolves with on success. -/
structure DlOk where
  buffer : List Nat
  filename : String
  contentType : String
  cached : Bool
deriving DecidableEq, Repr

/-- Full outcome of a `downloadMedia` call: result, cache directory after the
call, outbound calls made, log lines emitted. -/
structure DlOut where
  res : Except DlError DlOk
  fs : CacheFs
  events : List Event
  logs : List LogLine
deriving Repr

/-- JavaScript `a || b` on strings: the first operand unless it is falsy. -/
def jsOr (a b : String) : String := if a = "" then b else a

/-- The download-URL selection of `downloadMedia`: the dedicated audio track
(`music`) in audio-only mode, otherwise `hdplay || play || wmplay`. -/
def chooseDownloadUrl (info : TikwmVideoInfo) (audioOnly : Bool) : String :=
  if audioOnly then info.music
  else jsOr info.hdplay (jsOr info.play info.wmplay)

/-- The helper `downloadMedia(videoUrl, audioOnly)`.  It derives the cache file name
from `getCacheKey(videoUrl)` and the extension (`mp3` when `audioOnly`,
`mp4` otherwise), then tries `access` + `readFile` on the cache file inside
one `try`, whose catch-all treats ANY failure (absence or injected I/O
fault) as a miss and falls through to the download path: one `getVideoInfo`
call, URL selection (`music` when `audioOnly`, else
`hdplay || play || wmplay`), a bytes fetch, and a best-effort cache write
whose failure is only logged. -/
def downloadMedia (env : DlEnv) (fs : CacheFs) (videoUrl : String)
    (audioOnly : Bool) : DlOut :=
  let cacheKey := getCacheKey videoUrl
  let extension := if audioOnly then "mp3" else "mp4"
  let cachedFile := cacheKey ++ "." ++ extension
  let contentType := if audioOnly then "audio/mp3" else "video/mp4"
  let filename := "tiktok_" ++ cacheKey ++ "." ++ extension
  let hit : Option (List Nat) :=
    if env.faults.accessFault || env.faults.readFault then none
    else cacheLookup fs cachedFile
  match hit with
  | some buffer =>
      { res := Except.ok { buffer := buffer, filename := filename,
                           contentType := contentType, cached := true },
        fs := fs, events := [], logs := [LogLine.foundCached] }
  | none =>
    match getVideoInfo env.info videoUrl with
    | (Except.error e, evs) =>
        { res := Except.error (DlError.extractionFailed e), fs := fs,
          events := evs, logs := [] }
    | (Except.ok info, evs) =>
      let downloadUrl := chooseDownloadUrl info audioOnly
      if downloadUrl = "" then
        { res := Except.error DlError.noDownloadUrl, fs := fs,
          events := evs, logs := [] }
      else if !env.fetchOk then
        { res := Except.error (DlError.downloadFailed env.fetchStatus), fs := fs,
          events := evs ++ [Event.mediaDownloadCall downloadUrl], logs := [] }
      else
        let buffer := env.fetchBody
        let fsAfter := if env.faults.writeFault then fs
                       else cacheStore fs cachedFile buffer
        let writeLog := if env.faults.writeFault then LogLine.failedToSaveToCache
                        else LogLine.savedToCache
        { res := Except.ok { buffer := buffer, filename := filename,
                             contentType := contentType, cached := false },
          fs := fsAfter,
          events := evs ++ [Event.mediaDownloadCall downloadUrl],
          logs := [writeLog] }

/-- JavaScript numbers as used by the debug-metric arithmetic: a finite
value (exact rationals stand in for float64, adequate for the definedness
and zero-denominator behaviour at issue), the two infinities, and NaN.
Division in JavaScript never throws; by-zero results follow IEEE-754. -/
inductive JsNum where
  | num (q : ℚ)
  | posInf
  | negInf
  | nan
deriving DecidableEq, Repr

def jsDiv : JsNum → JsNum → JsNum
  | JsNum.nan, _ => JsNum.nan
  | _, JsNum.nan => JsNum.nan
  | JsNum.num a, JsNum.num b =>
      if b = 0 then
        (if a > 0 then JsNum.posInf else if a < 0 then JsNum.negInf else JsNum.nan)
      else JsNum.num (a / b)
  | JsNum.num _, JsNum.posInf => JsNum.num 0
  | JsNum.num _, JsNum.negInf => JsNum.num 0
  | JsNum.posInf, JsNum.num b => if b < 0 then JsNum.negInf else JsNum.posInf
  | JsNum.negInf, JsNum.num b => if b < 0 then JsNum.posInf else JsNum.negInf
  | JsNum.posInf, JsNum.posInf => JsNum.nan
  | JsNum.posInf, JsNum.negInf => JsNum.nan
  | JsNum.negInf, JsNum.posInf => JsNum.nan
  | JsNum.negInf, JsNum.negInf => JsNum.nan

def jsMul : JsNum → JsNum → JsNum
  | JsNum.nan, _ => JsNum.nan
  | _, JsNum.nan => JsNum.nan
  | JsNum.num a, JsNum.num b => JsNum.num (a * b)
  | JsNum.num a, JsNum.posInf =>
      if a > 0 then JsNum.posInf else if a < 0 then JsNum.negInf else JsNum.nan
  | JsNum.num a, JsNum.negInf =>
      if a > 0 then JsNum.negInf else if a < 0 then JsNum.posInf else JsNum.nan
  | JsNum.posInf, JsNum.num b =>
      if b > 0 then JsNum.posInf else if b < 0 then JsNum.negInf else JsNum.nan
  | JsNum.negInf, JsNum.num b =>
      if b > 0 then JsNum.negInf else if b < 0 then JsNum.posInf else JsNum.nan
  | JsNum.posInf, JsNum.posInf => JsNum.posInf
  | JsNum.posInf, JsNum.negInf => JsNum.negInf
  | JsNum.negInf, JsNum.posInf => JsNum.negInf
  | JsNum.negInf, JsNum.negInf => JsNum.posInf

/-- The `timing` record the caption handler mutates along the pipeline
(`Date.now()` values; unreached sites stay at the 0 sentinel). -/
structure Timing where
  start : Nat
  metadataStart : Nat
  metadataEnd : Nat
  downloadStart : Nat
  downloadEnd : Nat
  transcribeStart : Nat
  transcribeEnd : Nat
deriving DecidableEq, Repr

/-- The wall-clock values `Date.now()` would return at each call site of the
caption handler, one field per site in program order.  Realistic executions
satisfy positivity and monotonicity, which theorems assume explicitly. -/
structure Clock where
  tStart : Nat
  tMetaStart : Nat
  tMetaEnd : Nat
  tDlStart : Nat
  tDlEnd : Nat
  tTrStart : Nat
  tTrEnd : Nat
  tError : Nat
deriving DecidableEq, Repr

/-- Which exception name the runtime uses when `AbortSignal.timeout` aborts
the in-flight Whisper fetch (`TimeoutError` per spec, `AbortError` on some
runtimes); the handler maps both to the same 408 class. -/
inductive TimeoutKind where
  | timeoutName
  | abortName
deriving DecidableEq, Repr

/-- The transcription worker as the dispatcher observes it: how long it
takes to respond, and the response (transport ok flag, body text, whether
the body parses as JSON, and the parsed caption). -/
structure WhisperWorker where
  delayMs : Nat
  timeoutKind : TimeoutKind
  respOk : Bool
  bodyText : String
  jsonOk : Bool
  caption : String
deriving DecidableEq, Repr

/-- Observable outcome of the Whisper fetch. -/
inductive WhisperOutcome where
  | timeoutErr
  | abortErr
  | resp (ok : Bool) (bodyText : String) (jsonOk : Bool) (caption : String)
deriving DecidableEq, Repr

/-- The constant passed to `AbortSignal.timeout` in the Whisper fetch: two minutes. -/
def whisperTimeoutMs : Nat := 120000

/-- Semantics of `fetch(WHISPER_API_URL, {..., signal: AbortSignal.timeout(timeoutMs)})`:
if the worker has not responded when the signal fires, the in-flight call is
aborted and the fetch rejects with the runtime's timeout exception;
otherwise the worker's response is returned. -/
def whisperCall (w : WhisperWorker) (timeoutMs : Nat) : WhisperOutcome :=
  if timeoutMs ≤ w.delayMs then
    match w.timeoutKind with
    | TimeoutKind.timeoutName => WhisperOutcome.timeoutErr
    | TimeoutKind.abortName => WhisperOutcome.abortErr
  else
    WhisperOutcome.resp w.respOk w.bodyText w.jsonOk w.caption

/-- The `debug` block of a successful caption response.  Durations are the
millisecond values interpolated into the strings; the `performance` and
`breakdown` figures are the numbers `toFixed` formats. -/
structure DebugBlock where
  timingTotal : Int
  timingMetadata : Int
  timingDownload : Int
  timingTranscription : Int
  downloadSpeed : JsNum
  transcriptionSpeed : JsNum
  efficiency : String
  breakdownMetadata : JsNum
  breakdownDownload : JsNum
  breakdownTranscription : JsNum
deriving DecidableEq, Repr

/-- The derived-metric computation of the success path (source lines
`response.debug = {...}`): throughput `buffer.length / (downloadTime/1000)
/ 1024 / 1024`, transcription speed `duration / (transcribeTime/1000)`, and
per-phase percentage `phase / total * 100`. -/
def mkDebugBlock (fileSize : Nat) (duration : Nat) (audioOnly : Bool)
    (metadataTime downloadTime transcribeTime total : Int) : DebugBlock :=
  { timingTotal := total
    timingMetadata := metadataTime
    timingDownload := downloadTime
    timingTranscription := transcribeTime
    downloadSpeed :=
      jsDiv (jsDiv (jsDiv (JsNum.num (fileSize : ℚ))
        (jsDiv (JsNum.num (downloadTime : ℚ)) (JsNum.num 1000)))
        (JsNum.num 1024)) (JsNum.num 1024)
    transcriptionSpeed :=
      jsDiv (JsNum.num (duration : ℚ))
        (jsDiv (JsNum.num (transcribeTime : ℚ)) (JsNum.num 1000))
    efficiency := if audioOnly then "audio-only (optimized)" else "full-video"
    breakdownMetadata :=
      jsMul (jsDiv (JsNum.num (metadataTime : ℚ)) (JsNum.num (total : ℚ))) (JsNum.num 100)
    breakdownDownload :=
      jsMul (jsDiv (JsNum.num (downloadTime : ℚ)) (JsNum.num (total : ℚ))) (JsNum.num 100)
    breakdownTranscription :=
      jsMul (jsDiv (JsNum.num (transcribeTime : ℚ)) (JsNum.num (total : ℚ))) (JsNum.num 100) }

/-- The `debug` block attached to 408 error responses: the partial timing
computed in the catch, and the failed stage inferred from which timing
fields are populated. -/
structure ErrDebug where
  totalMs : Int
  metadataMs : Int
  downloadMs : Int
  transcriptionMs : Int
  failedAt : String
deriving DecidableEq, Repr

/-- The catch block's `partialTiming` and `failedAt` computation. -/
def errDebugInfo (t : Timing) (errorTime : Nat) : ErrDebug :=
  { totalMs := (errorTime : Int) - (t.start : Int)
    metadataMs :=
      if t.metadataEnd > 0 then (t.metadataEnd : Int) - (t.metadataStart : Int) else 0
    downloadMs :=
      if t.downloadEnd > 0 then (t.downloadEnd : Int) - (t.downloadStart : Int) else 0
    transcriptionMs :=
      if t.transcribeStart > 0 then (errorTime : Int) - (t.transcribeStart : Int) else 0
    failedAt :=
      if t.transcribeStart > 0 then "transcription"
      else if t.downloadStart > 0 then "download"
      else "metadata" }

/-- An error JSON body: `error` summary, optional `details`, optional
`debug` block. -/
structure ErrBody where
  error : String
  details : Option String
  debugBlock : Option ErrDebug
deriving DecidableEq, Repr

/-- The successful caption response body. -/
structure SuccessResp where
  url : String
  caption : String
  title : String
  author : String
  authorId : String
  duration : Nat
  processingType : String
  fileSize : Nat
  thumbnail : String
  originCover : String
  cached : Bool
  downloadUrl : String
  debugBlock : Option DebugBlock
deriving DecidableEq, Repr

/-- What the caption handler produces: a 200 JSON response, an error JSON
response with its status, or an exception escaping the handler (handled by
the framework as a 500-class error). -/
inductive CapResult where
  | ok (r : SuccessResp)
  | err (status : Nat) (body : ErrBody)
  | thrown
deriving DecidableEq, Repr

/-- Full outcome of one caption request. -/
structure CapOut where
  res : CapResult
  fs : CacheFs
  events : List Event
  logs : List LogLine
deriving Repr

/-- An inbound request body: malformed (JSON.parse throws inside
`c.req.json()`) or a JSON object whose `url` member is absent or a string. -/
inductive ReqBody where
  | malformed
  | json (url : Option String)
deriving DecidableEq, Repr

/-- Environment for one caption request: the handler's own `getVideoInfo`
call, the `downloadMedia` environment (including its second `getVideoInfo`
call), and the transcription worker. -/
structure CapEnv where
  info : ExtractionEnv
  dl : DlEnv
  whisper : WhisperWorker
deriving DecidableEq, Repr

def invalidUrlBody : ErrBody :=
  { error := "Invalid or missing TikTok URL.", details := none, debugBlock := none }

/-- The catch-all result for errors that are neither `TimeoutError` nor
`AbortError`: a bare 500 with no details and no debug block, regardless of
the `debug` flag. -/
def genericErrorResult : CapResult :=
  CapResult.err 500
    { error := "An internal server error occurred.", details := none, debugBlock := none }

def timeoutBody (t : Timing) (errorTime : Nat) (debug : Bool) : ErrBody :=
  { error := "Request timed out. The video might be too long or the transcription service is slow."
    details := some "Please try again or use a shorter video."
    debugBlock := if debug then some (errDebugInfo t errorTime) else none }

def abortBody (t : Timing) (errorTime : Nat) (debug : Bool) : ErrBody :=
  { error := "Request was aborted due to timeout."
    details := some "The operation took longer than expected."
    debugBlock := if debug then some (errDebugInfo t errorTime) else none }

/-- Success-path response assembly (steps `timing.total = ...` through
`return c.json(response)`). -/
def successResp (url : String) (caption : String) (metadata : TikwmVideoInfo)
    (media : DlOk) (audioOnly debug : Bool) (t : Timing) : SuccessResp :=
  let total : Int := (t.transcribeEnd : Int) - (t.start : Int)
  let metadataTime : Int := (t.metadataEnd : Int) - (t.metadataStart : Int)
  let downloadTime : Int := (t.downloadEnd : Int) - (t.downloadStart : Int)
  let transcribeTime : Int := (t.transcribeEnd : Int) - (t.transcribeStart : Int)
  { url := url
    caption := caption
    title := metadata.title
    author := metadata.authorNickname
    authorId := metadata.authorUniqueId
    duration := metadata.duration
    processingType := if audioOnly then "audio-only" else "video"
    fileSize := media.buffer.length
    thumbnail := metadata.cover
    originCover := metadata.originCover
    cached := media.cached
    downloadUrl := "/download"
    debugBlock :=
      if debug then
        some (mkDebugBlock media.buffer.length metadata.duration audioOnly
          metadataTime downloadTime transcribeTime total)
      else none }

/-- The `POST /caption` handler (tikwm variant), in program order: body
parse (throws on malformed JSON, before anything else), URL validation,
metadata fetch, media download, Whisper dispatch under the 120 s signal,
response assembly; the catch maps `TimeoutError`/`AbortError` to 408 with
optional debug info and everything else to the bare generic 500. -/
def captionHandler (clk : Clock) (env : CapEnv) (fs : CacheFs) (body : ReqBody)
    (audioOnly debug : Bool) : CapOut :=
  match body with
  | ReqBody.malformed => { res := CapResult.thrown, fs := fs, events := [], logs := [] }
  | ReqBody.json urlOpt =>
    if urlMissingOrInvalid urlOpt then
      { res := CapResult.err 400 invalidUrlBody, fs := fs, events := [], logs := [] }
    else
      let url := urlOpt.getD ""
      let t0 : Timing :=
        { start := clk.tStart, metadataStart := 0, metadataEnd := 0,
          downloadStart := 0, downloadEnd := 0, transcribeStart := 0, transcribeEnd := 0 }
      let t1 := { t0 with metadataStart := clk.tMetaStart }
      match getVideoInfo env.info url with
      | (Except.error _, evs) =>
          { res := genericErrorResult, fs := fs, events := evs, logs := [] }
      | (Except.ok metadata, evs1) =>
        let t2 := { t1 with metadataEnd := clk.tMetaEnd }
        let t3 := { t2 with downloadStart := clk.tDlStart }
        let dl := downloadMedia env.dl fs url audioOnly
        match dl.res with
        | Except.error _ =>
            { res := genericErrorResult, fs := dl.fs,
              events := evs1 ++ dl.events, logs := dl.logs }
        | Except.ok media =>
          let t4 := { t3 with downloadEnd := clk.tDlEnd }
          let t5 := { t4 with transcribeStart := clk.tTrStart }
          let evs := evs1 ++ dl.events ++ [Event.transcriptionCall]
          match whisperCall env.whisper whisperTimeoutMs with
          | WhisperOutcome.timeoutErr =>
              { res := CapResult.err 408 (timeoutBody t5 clk.tError debug),
                fs := dl.fs, events := evs, logs := dl.logs }
          | WhisperOutcome.abortErr =>
              { res := CapResult.err 408 (abortBody t5 clk.tError debug),
                fs := dl.fs, events := evs, logs := dl.logs }
          | WhisperOutcome.resp respOk bodyText jsonOk caption =>
            if !respOk then
              { res := CapResult.err 500
                  { error := "Transcription service failed.",
                    details := some bodyText, debugBlock := none },
                fs := dl.fs, events := evs, logs := dl.logs }
            else if !jsonOk then
              { res := genericErrorResult, fs := dl.fs, events := evs, logs := dl.logs }
            else
              let t6 := { t5 with transcribeEnd := clk.tTrEnd }
              { res := CapResult.ok (successResp url caption metadata media audioOnly debug t6),
                fs := dl.fs, events := evs, logs := dl.logs }

/-- What the `POST /download` handler produces: a redirect to the chosen
media URL, an error JSON response, or an escaped exception. -/
inductive DownloadResult where
  | redirect (url : String)
  | err (status : Nat) (body : ErrBody)
  | thrown
deriving DecidableEq, Repr

/-- The `error.message` texts of `getVideoInfo` failures, as interpolated
into the `details` field of the download handler's 500 body. -/
def infoErrorMessage : InfoError → String
  | InfoError.requestFailed status =>
      "Failed to get video info from tikwm: tikwm API request failed: " ++ toString status
  | InfoError.apiError msg =>
      "Failed to get video info from tikwm: tikwm API error: " ++ msg

/-- The `POST /download` handler (tikwm variant): body parse, URL
validation, one `getVideoInfo` call, then redirect to
`hdplay || play || wmplay` — with a dead reassignment to `hdplay` when
`hq` is set and `hdplay` is truthy — or a 500 when that is empty or the
extraction failed. -/
def downloadHandler (env : ExtractionEnv) (body : ReqBody) (hq : Bool) :
    DownloadResult × List Event :=
  match body with
  | ReqBody.malformed => (DownloadResult.thrown, [])
  | ReqBody.json urlOpt =>
    if urlMissingOrInvalid urlOpt then
      (DownloadResult.err 400 invalidUrlBody, [])
    else
      let url := urlOpt.getD ""
      match getVideoInfo env url with
      | (Except.error e, evs) =>
          (DownloadResult.err 500
            { error := "Failed to get download URL", details := some (infoErrorMessage e),
              debugBlock := none }, evs)
      | (Except.ok info, evs) =>
        let base := jsOr info.hdplay (jsOr info.play info.wmplay)
        let downloadUrl := if hq && info.hdplay ≠ "" then info.hdplay else base
        if downloadUrl = "" then
          (DownloadResult.err 500
            { error := "Failed to get download URL",
              details := some "No download URL available", debugBlock := none }, evs)
        else
          (DownloadResult.redirect downloadUrl, evs)

/-- Metadata returned by the yt-dlp extraction in the second variant. -/
structure YtDlpInfo where
  id : String
  title : String
  uploader : String
  duration : Nat
  url : String
  ext : String
  thumbnail : String
  description : Option String
deriving DecidableEq, Repr

/-- Outcome of the yt-dlp invocation in the second variant's
`getVideoInfo`: exit code, whether stdout parses, and the parsed info. -/
structure YtEnv where
  exitCode : Int
  parseOk : Bool
  info : YtDlpInfo
deriving DecidableEq, Repr

/-- The yt-dlp variant's `getVideoInfo`: one external-tool invocation,
failing on nonzero exit or unparsable output. -/
def getVideoInfoYt (env : YtEnv) (videoUrl : String) :
    Except String YtDlpInfo × List Event :=
  if env.exitCode ≠ 0 then
    (Except.error "yt-dlp failed", [Event.extractionCall videoUrl])
  else if !env.parseOk then
    (Except.error "Failed to parse yt-dlp output", [Event.extractionCall videoUrl])
  else
    (Except.ok env.info, [Event.extractionCall videoUrl])

/-- The `POST /download` handler of the yt-dlp variant: it parses `hq` but
never uses it, redirecting to `info.url` unconditionally. -/
def downloadHandlerYt (env : YtEnv) (body : ReqBody) (hq : Bool) :
    DownloadResult × List Event :=
  match body with
  | ReqBody.malformed => (DownloadResult.thrown, [])
  | ReqBody.json urlOpt =>
    if urlMissingOrInvalid urlOpt then
      (DownloadResult.err 400 invalidUrlBody, [])
    else
      let url := urlOpt.getD ""
      match getVideoInfoYt env url with
      | (Except.error e, evs) =>
          (DownloadResult.err 500
            { error := "Failed to get download URL", details := some e,
              debugBlock := none }, evs)
      | (Except.ok info, evs) =>
          (DownloadResult.redirect info.url, evs)

/-- HTTP status of a caption result (`none` when the exception escaped the
handler and the framework, not the handler, chose the status). -/
def CapResult.status : CapResult → Option Nat
  | CapResult.ok _ => some 200
  | CapResult.err s _ => some s
  | CapResult.thrown => none

/-- The error-debug block of an error result, when present. -/
def CapResult.debugOfErr : CapResult → Option ErrDebug
  | CapResult.err _ b => b.debugBlock
  | _ => none

/-- The debug block of a success result, when present. -/
def CapResult.successDebug : CapResult → Option DebugBlock
  | CapResult.ok r => r.debugBlock
  | _ => none

/-- A clock whose every reading is the same instant: all phase durations
and the total are zero. -/
def constClock (c : Nat) : Clock :=
  { tStart := c, tMetaStart := c, tMetaEnd := c, tDlStart := c, tDlEnd := c,
    tTrStart := c, tTrEnd := c, tError := c }

/-- Sample metadata payload for concrete instantiations. -/
def sampleInfo : TikwmVideoInfo :=
  { id := "1", title := "t", authorUniqueId := "user1", authorNickname := "nick",
    duration := 30, play := "https://cdn/play", music := "https://cdn/music",
    cover := "cv", originCover := "ocv", wmplay := "https://cdn/wm",
    hdplay := "https://cdn/hd" }

def okExtraction : ExtractionEnv :=
  { respOk := true, respStatus := 200, code := 0, msg := "", data := sampleInfo }

def failExtraction : ExtractionEnv :=
  { respOk := false, respStatus := 502, code := 0, msg := "", data := sampleInfo }

def okDlEnv : DlEnv :=
  { info := okExtraction, fetchOk := true, fetchStatus := 200,
    fetchBody := [1, 2, 3], faults := noFaults }

def okWorker : WhisperWorker :=
  { delayMs := 5000, timeoutKind := TimeoutKind.timeoutName, respOk := true,
    bodyText := "ok", jsonOk := true, caption := "hello world" }

def lateWorker : WhisperWorker :=
  { delayMs := 130000, timeoutKind := TimeoutKind.timeoutName, respOk := true,
    bodyText := "ok", jsonOk := true, caption := "hello world" }

def badWorker : WhisperWorker :=
  { delayMs := 5000, timeoutKind := TimeoutKind.timeoutName, respOk := false,
    bodyText := "boom", jsonOk := false, caption := "" }

def okCapEnv : CapEnv := { info := okExtraction, dl := okDlEnv, whisper := okWorker }

def clkSample : Clock :=
  { tStart := 100, tMetaStart := 110, tMetaEnd := 120, tDlStart := 130,
    tDlEnd := 140, tTrStart := 150, tTrEnd := 160, tError := 170 }

def goodUrl : String := "https://www.tiktok.com/@user/video/123"

/-- The result a fresh successful download of `goodUrl` produces under
`okDlEnv`. -/
def mediaSample : DlOk :=
  { buffer := [1, 2, 3], filename := "tiktok_" ++ goodUrl ++ ".mp4",
    contentType := "video/mp4", cached := false }

def lateCapEnv : CapEnv := { info := okExtraction, dl := okDlEnv, whisper := lateWorker }

def badWhisperCapEnv : CapEnv := { info := okExtraction, dl := okDlEnv, whisper := badWorker }

/-- Metadata carrying no candidate URL at all. -/
def noUrlInfo : TikwmVideoInfo :=
  { sampleInfo with play := "", music := "", wmplay := "", hdplay := "" }

def noUrlDlEnv : DlEnv := { okDlEnv with info := { okExtraction with data := noUrlInfo } }

def fetchFailDlEnv : DlEnv := { okDlEnv with fetchOk := false, fetchStatus := 403 }

/-- C10: for every request to POST /caption or POST /download whose body is
not valid JSON, the body parse throws before URL validation runs: the
request escapes the handler as an unhandled exception (framework-level 500
class) with zero outbound calls, and in particular the handler never
produces the 400 `InvalidUrl` response for such input. -/
theorem malformed_body_escapes_handler (clk : Clock) (env : CapEnv)
    (yenv : ExtractionEnv) (fs : CacheFs) (audioOnly debug hq : Bool) :
    captionHandler clk env fs ReqBody.malformed audioOnly debug =
      { res := CapResult.thrown, fs := fs, events := [], logs := [] } ∧
    downloadHandler yenv ReqBody.malformed hq = (DownloadResult.thrown, []) ∧
    (∀ b, CapResult.thrown ≠ CapResult.err 400 b) ∧
    (∀ b, DownloadResult.thrown ≠ DownloadResult.err 400 b) := by
  refine ⟨rfl, rfl, ?_, ?_⟩ <;> intro b <;> simp

/-- C9: the `hq` query parameter of POST /download has no observable effect:
in the tikwm variant the high-definition URL is already first in the
unconditional fallback chain, so the `hq`-guarded reassignment never changes
the chosen URL, and in the yt-dlp variant `hq` is parsed but never used.
The full handler outcome (redirect target or error, and outbound calls) is
identical for `hq=true` and `hq=false`. -/
theorem download_hq_noninterference (env : ExtractionEnv) (yenv : YtEnv)
    (body : ReqBody) :
    downloadHandler env body true = downloadHandler env body false ∧
    downloadHandlerYt yenv body true = downloadHandlerYt yenv body false := by
  constructor
  · cases body with
    | malformed => rfl
    | json urlOpt =>
      simp only [downloadHandler]
      split
      · rfl
      · rcases getVideoInfo env (urlOpt.getD "") with ⟨res, evs⟩
        cases res with
        | error e => rfl
        | ok info => by_cases h : info.hdplay = "" <;> simp [jsOr, h]
  · rfl

/-- The helper `getVideoInfo` records exactly one extraction-provider call, whatever
the outcome. -/
theorem getVideoInfo_snd (env : ExtractionEnv) (u : String) :
    (getVideoInfo env u).2 = [Event.extractionCall u] := by
  unfold getVideoInfo
  split
  · rfl
  · split <;> rfl

/-- After validation passes, the caption handler's first outbound call is
the extraction call for the request URL, and no 400 response is possible. -/
theorem captionHandler_valid_shape (clk : Clock) (env : CapEnv) (fs : CacheFs)
    (urlOpt : Option String) (audioOnly debug : Bool)
    (h : urlMissingOrInvalid urlOpt = false) :
    (captionHandler clk env fs (ReqBody.json urlOpt) audioOnly debug).events.head? =
      some (Event.extractionCall (urlOpt.getD "")) ∧
    ∀ b, (captionHandler clk env fs (ReqBody.json urlOpt) audioOnly debug).res ≠
      CapResult.err 400 b := by
  have hevs := getVideoInfo_snd env.info (urlOpt.getD "")
  simp only [captionHandler, h, Bool.false_eq_true, if_false]
  rcases hgv : getVideoInfo env.info (urlOpt.getD "") with ⟨res, evs⟩
  rw [hgv] at hevs
  simp only at hevs
  subst hevs
  cases res with
  | error e => simp [genericErrorResult]
  | ok metadata =>
    rcases (downloadMedia env.dl fs (urlOpt.getD "") audioOnly).res with e | media
    · simp [genericErrorResult]
    · rcases whisperCall env.whisper whisperTimeoutMs with _ | _ | ⟨respOk, bodyText, jsonOk, caption⟩
      · simp
      · simp
      · cases respOk <;> cases jsonOk <;> simp [genericErrorResult]

/-- After validation passes, the download handler's first outbound call is
the extraction call for the request URL, and no 400 response is possible. -/
theorem downloadHandler_valid_shape (yenv : ExtractionEnv) (urlOpt : Option String)
    (hq : Bool) (h : urlMissingOrInvalid urlOpt = false) :
    (downloadHandler yenv (ReqBody.json urlOpt) hq).2.head? =
      some (Event.extractionCall (urlOpt.getD "")) ∧
    ∀ b, (downloadHandler yenv (ReqBody.json urlOpt) hq).1 ≠
      DownloadResult.err 400 b := by
  simp only [downloadHandler, h, Bool.false_eq_true, if_false]
  cases hOk : yenv.respOk with
  | false => simp [getVideoInfo, hOk]
  | true =>
    by_cases hc : yenv.code = 0
    · simp only [getVideoInfo, hOk, hc, Bool.not_true, Bool.false_eq_true, if_false,
        ne_eq, not_true_eq_false, if_false]
      constructor
      · split <;> split <;> simp
      · intro b
        split <;> split <;> simp
    · simp [getVideoInfo, hOk, hc]

/-- C1: for every inbound request to POST /caption or POST /download whose
body `url` is missing or fails the TikTok URL-host pattern, the handler
returns HTTP 400 with the error body and makes zero outbound calls; for
every `url` matching the pattern, validation passes and the pipeline
proceeds: the first recorded outbound call is the extraction-provider call
for that URL, and no 400 response can be produced. -/
theorem url_validation_gate (clk : Clock) (env : CapEnv) (yenv : ExtractionEnv)
    (fs : CacheFs) (urlOpt : Option String) (audioOnly debug hq : Bool) :
    (urlMissingOrInvalid urlOpt = true →
       captionHandler clk env fs (ReqBody.json urlOpt) audioOnly debug =
         { res := CapResult.err 400 invalidUrlBody, fs := fs, events := [], logs := [] } ∧
       downloadHandler yenv (ReqBody.json urlOpt) hq =
         (DownloadResult.err 400 invalidUrlBody, [])) ∧
    (urlMissingOrInvalid urlOpt = false →
       (captionHandler clk env fs (ReqBody.json urlOpt) audioOnly debug).events.head? =
         some (Event.extractionCall (urlOpt.getD "")) ∧
       (∀ b, (captionHandler clk env fs (ReqBody.json urlOpt) audioOnly debug).res ≠
          CapResult.err 400 b) ∧
       (downloadHandler yenv (ReqBody.json urlOpt) hq).2.head? =
         some (Event.extractionCall (urlOpt.getD "")) ∧
       (∀ b, (downloadHandler yenv (ReqBody.json urlOpt) hq).1 ≠
          DownloadResult.err 400 b)) := by
  constructor
  · intro h
    constructor
    · simp [captionHandler, h]
    · simp [downloadHandler, h]
  · intro h
    obtain ⟨h1, h2⟩ := captionHandler_valid_shape clk env fs urlOpt audioOnly debug h
    obtain ⟨h3, h4⟩ := downloadHandler_valid_shape yenv urlOpt hq h
    exact ⟨h1, h2, h3, h4⟩

/-- A just-stored cache entry is found by the next lookup. -/
theorem cacheLookup_store_self (fs : CacheFs) (k : String) (b : List Nat) :
    cacheLookup (cacheStore fs k b) k = some b := by
  simp [cacheStore, cacheLookup]

/-- C2: the transcription dispatch passes `AbortSignal.timeout(120000)` —
a hard 120-second bound measured from submission.  When the pipeline has
reached the transcription stage: a worker that has not responded within the
bound has its in-flight call aborted (the fetch yields the timeout/abort
exception, never a response), and the /caption response carries the
distinct 408 status; a reachable worker answering in time with a
non-success status instead yields the generic 500 with the worker's body as
`details`. -/
theorem transcription_timeout_vs_failure
    (clk : Clock) (env : CapEnv) (fs : CacheFs) (url : String)
    (audioOnly debug : Bool) (media : DlOk)
    (hu : urlMissingOrInvalid (some url) = false)
    (hOk : env.info.respOk = true) (hCode : env.info.code = 0)
    (hdl : (downloadMedia env.dl fs url audioOnly).res = Except.ok media) :
    whisperTimeoutMs = 120000 ∧
    (whisperTimeoutMs ≤ env.whisper.delayMs →
       (whisperCall env.whisper whisperTimeoutMs = WhisperOutcome.timeoutErr ∨
        whisperCall env.whisper whisperTimeoutMs = WhisperOutcome.abortErr) ∧
       (captionHandler clk env fs (ReqBody.json (some url)) audioOnly debug).res.status =
         some 408) ∧
    (env.whisper.delayMs < whisperTimeoutMs → env.whisper.respOk = false →
       (captionHandler clk env fs (ReqBody.json (some url)) audioOnly debug).res =
         CapResult.err 500
           { error := "Transcription service failed.",
             details := some env.whisper.bodyText, debugBlock := none }) := by
  refine ⟨rfl, ?_, ?_⟩
  · intro hlate
    have h1 : whisperCall env.whisper whisperTimeoutMs = WhisperOutcome.timeoutErr ∨
        whisperCall env.whisper whisperTimeoutMs = WhisperOutcome.abortErr := by
      unfold whisperCall
      cases env.whisper.timeoutKind <;> simp [hlate]
    refine ⟨h1, ?_⟩
    rcases h1 with h1 | h1 <;>
      simp [captionHandler, hu, getVideoInfo, hOk, hCode, hdl, h1, CapResult.status]
  · intro hlt hbad
    have hwc : whisperCall env.whisper whisperTimeoutMs =
        WhisperOutcome.resp env.whisper.respOk env.whisper.bodyText
          env.whisper.jsonOk env.whisper.caption := by
      unfold whisperCall
      rw [if_neg (by omega)]
    simp [captionHandler, hu, getVideoInfo, hOk, hCode, hdl, hwc, hbad]

/-- On a healthy filesystem, a cache hit returns the stored bytes with
`cached = true` and performs no outbound call. -/
theorem downloadMedia_hit (env : DlEnv) (fs : CacheFs) (url : String)
    (audioOnly : Bool) (b : List Nat)
    (ha : env.faults.accessFault = false) (hr : env.faults.readFault = false)
    (hl : cacheLookup fs (getCacheKey url ++ "." ++ (if audioOnly then "mp3" else "mp4")) =
      some b) :
    downloadMedia env fs url audioOnly =
      { res := Except.ok
          { buffer := b,
            filename := "tiktok_" ++ getCacheKey url ++ "." ++ (if audioOnly then "mp3" else "mp4"),
            contentType := if audioOnly then "audio/mp3" else "video/mp4",
            cached := true },
        fs := fs, events := [], logs := [LogLine.foundCached] } := by
  simp [downloadMedia, ha, hr, hl]

/-- Whenever `downloadMedia` returns bytes successfully and its cache write
is not hit by a write fault, the resulting cache holds exactly those bytes
under the call's cache file name, and the returned filename/content type
are the ones derived from the flag. -/
theorem downloadMedia_ok_shape (env : DlEnv) (fs : CacheFs) (url : String)
    (audioOnly : Bool) (r : DlOk)
    (h : (downloadMedia env fs url audioOnly).res = Except.ok r)
    (hw : env.faults.writeFault = false) :
    cacheLookup (downloadMedia env fs url audioOnly).fs
        (getCacheKey url ++ "." ++ (if audioOnly then "mp3" else "mp4")) = some r.buffer ∧
    r.filename = "tiktok_" ++ getCacheKey url ++ "." ++ (if audioOnly then "mp3" else "mp4") ∧
    r.contentType = (if audioOnly then "audio/mp3" else "video/mp4") := by
  cases hfault : (env.faults.accessFault || env.faults.readFault) with
  | true =>
    simp only [downloadMedia, hfault, if_true] at h ⊢
    rcases hgv : getVideoInfo env.info url with ⟨res, evs⟩
    rw [hgv] at h
    cases res with
    | error e => simp at h
    | ok info =>
      by_cases hsel : chooseDownloadUrl info audioOnly = ""
      · simp [hsel] at h
      · cases hfk : env.fetchOk with
        | false => simp [hsel, hfk] at h
        | true =>
          simp only [hsel, hfk, hw, Bool.false_eq_true, if_false, Bool.not_true,
            if_true, Except.ok.injEq] at h ⊢
          subst h
          simp [cacheLookup_store_self]
  | false =>
    cases hlk : cacheLookup fs (getCacheKey url ++ "." ++ (if audioOnly then "mp3" else "mp4")) with
    | some b =>
      simp only [downloadMedia, hfault, hlk, Bool.false_eq_true, if_false,
        Except.ok.injEq] at h ⊢
      subst h
      simp [hlk]
    | none =>
      simp only [downloadMedia, hfault, hlk, Bool.false_eq_true, if_false] at h ⊢
      rcases hgv : getVideoInfo env.info url with ⟨res, evs⟩
      rw [hgv] at h
      cases res with
      | error e => simp at h
      | ok info =>
        by_cases hsel : chooseDownloadUrl info audioOnly = ""
        · simp [hsel] at h
        · cases hfk : env.fetchOk with
          | false => simp [hsel, hfk] at h
          | true =>
            simp only [hsel, hfk, hw, Bool.false_eq_true, if_false, Bool.not_true,
              if_true, Except.ok.injEq] at h ⊢
            subst h
            simp [cacheLookup_store_self]

/-- C3: cache idempotence of `fetchBytes` (`downloadMedia`): when a first
call with some URL and audioOnly flag returns bytes successfully (and its
best-effort cache write is not hit by a write fault), a second call with
the same URL and flag — under any network environment and a healthy
filesystem — returns exactly the same bytes with `cached = true`, performs
zero outbound calls, and leaves the cache unchanged. -/
theorem fetchBytes_cache_idempotent
    (env1 env2 : DlEnv) (fs : CacheFs) (url : String) (audioOnly : Bool) (r : DlOk)
    (h1 : (downloadMedia env1 fs url audioOnly).res = Except.ok r)
    (hw : env1.faults.writeFault = false)
    (ha : env2.faults.accessFault = false) (hr : env2.faults.readFault = false) :
    downloadMedia env2 (downloadMedia env1 fs url audioOnly).fs url audioOnly =
      { res := Except.ok { buffer := r.buffer, filename := r.filename,
                           contentType := r.contentType, cached := true },
        fs := (downloadMedia env1 fs url audioOnly).fs,
        events := [], logs := [LogLine.foundCached] } := by
  obtain ⟨hlk, hfn, hct⟩ := downloadMedia_ok_shape env1 fs url audioOnly r h1 hw
  rw [downloadMedia_hit env2 (downloadMedia env1 fs url audioOnly).fs url audioOnly
    r.buffer ha hr hlk, hfn, hct]

/-- C4: on a cache miss, `fetchBytes` (`downloadMedia`) selects the
dedicated audio-track URL (`music`) when `audioOnly` is set and otherwise
the highest-available-quality video URL in the priority order
high-definition (`hdplay`), standard (`play`), watermarked (`wmplay`); an
empty selection fails with `NoDownloadUrl` before any media fetch, and a
non-success download status fails with `DownloadFailed` carrying that
status. -/
theorem downloadMedia_selection_and_failures
    (env : DlEnv) (fs : CacheFs) (url : String) (audioOnly : Bool)
    (hmiss : cacheLookup fs
      (getCacheKey url ++ "." ++ (if audioOnly then "mp3" else "mp4")) = none)
    (hOk : env.info.respOk = true) (hCode : env.info.code = 0) :
    (chooseDownloadUrl env.info.data true = env.info.data.music ∧
     chooseDownloadUrl env.info.data false =
       (if env.info.data.hdplay ≠ "" then env.info.data.hdplay
        else if env.info.data.play ≠ "" then env.info.data.play
        else env.info.data.wmplay)) ∧
    (chooseDownloadUrl env.info.data audioOnly = "" →
       (downloadMedia env fs url audioOnly).res = Except.error DlError.noDownloadUrl ∧
       (downloadMedia env fs url audioOnly).events = [Event.extractionCall url]) ∧
    (chooseDownloadUrl env.info.data audioOnly ≠ "" → env.fetchOk = false →
       (downloadMedia env fs url audioOnly).res =
         Except.error (DlError.downloadFailed env.fetchStatus) ∧
       (downloadMedia env fs url audioOnly).events =
         [Event.extractionCall url,
          Event.mediaDownloadCall (chooseDownloadUrl env.info.data audioOnly)]) ∧
    (chooseDownloadUrl env.info.data audioOnly ≠ "" → env.fetchOk = true →
       (downloadMedia env fs url audioOnly).res =
         Except.ok
           { buffer := env.fetchBody,
             filename := "tiktok_" ++ getCacheKey url ++ "." ++ (if audioOnly then "mp3" else "mp4"),
             contentType := if audioOnly then "audio/mp3" else "video/mp4",
             cached := false } ∧
       (downloadMedia env fs url audioOnly).events =
         [Event.extractionCall url,
          Event.mediaDownloadCall (chooseDownloadUrl env.info.data audioOnly)]) := by
  refine ⟨⟨rfl, ?_⟩, ?_, ?_, ?_⟩
  · by_cases h1 : env.info.data.hdplay = "" <;> by_cases h2 : env.info.data.play = "" <;>
      simp [chooseDownloadUrl, jsOr, h1, h2]
  · intro hsel
    cases hfault : (env.faults.accessFault || env.faults.readFault) <;>
      constructor <;>
        simp [downloadMedia, hfault, hmiss, getVideoInfo, hOk, hCode, hsel]
  · intro hsel hfk
    cases hfault : (env.faults.accessFault || env.faults.readFault) <;>
      constructor <;>
        simp [downloadMedia, hfault, hmiss, getVideoInfo, hOk, hCode, hsel, hfk]
  · intro hsel hfk
    cases hfault : (env.faults.accessFault || env.faults.readFault) <;>
      constructor <;>
        simp [downloadMedia, hfault, hmiss, getVideoInfo, hOk, hCode, hsel, hfk]

/-- C5 counterexample: a failing /caption request with `debug=true` whose
failure is an extraction error (not a timeout) is answered by the bare
generic 500 — no timing, no `failedAt` stage, not even `details` — refuting
the claim that every failure class carries debug information when
requested. -/
theorem caption_error_debug_counterexample :
    (captionHandler clkSample { info := failExtraction, dl := okDlEnv, whisper := okWorker }
        [] (ReqBody.json (some goodUrl)) false true).res =
      CapResult.err 500
        { error := "An internal server error occurred.", details := none,
          debugBlock := none } := by
  rfl

/-- C5 (amended): only the timeout/abort failure classes (the 408
responses) include, when `debug=true` was requested, the partial timing
collected before the failure and the `failedAt` stage inferred from the
populated timing fields.  Every failure class reaching the generic
catch-all is answered by the bare 500 without any debug information:
extraction transport failures, extraction API errors (`code ≠ 0`), download
errors, and malformed worker bodies are each covered, and — universally,
over every request body, flag, and environment — no error response other
than a 408 ever carries a debug block. -/
theorem caption_error_debug_only_on_timeout
    (clk : Clock) (env : CapEnv) (fs : CacheFs) (url : String)
    (audioOnly : Bool) (media : DlOk)
    (hu : urlMissingOrInvalid (some url) = false)
    (hOk : env.info.respOk = true) (hCode : env.info.code = 0)
    (hdl : (downloadMedia env.dl fs url audioOnly).res = Except.ok media)
    (hlate : whisperTimeoutMs ≤ env.whisper.delayMs)
    (hTr : 0 < clk.tTrStart) :
    (captionHandler clk env fs (ReqBody.json (some url)) audioOnly true).res.status =
      some 408 ∧
    (captionHandler clk env fs (ReqBody.json (some url)) audioOnly true).res.debugOfErr =
      some (errDebugInfo
        { start := clk.tStart, metadataStart := clk.tMetaStart,
          metadataEnd := clk.tMetaEnd, downloadStart := clk.tDlStart,
          downloadEnd := clk.tDlEnd, transcribeStart := clk.tTrStart,
          transcribeEnd := 0 } clk.tError) ∧
    (errDebugInfo
        { start := clk.tStart, metadataStart := clk.tMetaStart,
          metadataEnd := clk.tMetaEnd, downloadStart := clk.tDlStart,
          downloadEnd := clk.tDlEnd, transcribeStart := clk.tTrStart,
          transcribeEnd := 0 } clk.tError).failedAt = "transcription" ∧
    (∀ env2 : CapEnv, env2.info.respOk = false →
       (captionHandler clk env2 fs (ReqBody.json (some url)) audioOnly true).res =
         genericErrorResult) ∧
    (∀ env2 : CapEnv, env2.info.code ≠ 0 →
       (captionHandler clk env2 fs (ReqBody.json (some url)) audioOnly true).res =
         genericErrorResult) ∧
    (∀ env2 : CapEnv, env2.info.respOk = true → env2.info.code = 0 →
       ∀ e, (downloadMedia env2.dl fs url audioOnly).res = Except.error e →
       (captionHandler clk env2 fs (ReqBody.json (some url)) audioOnly true).res =
         genericErrorResult) ∧
    (∀ (env2 : CapEnv) (media2 : DlOk), env2.info.respOk = true → env2.info.code = 0 →
       (downloadMedia env2.dl fs url audioOnly).res = Except.ok media2 →
       env2.whisper.delayMs < whisperTimeoutMs → env2.whisper.respOk = true →
       env2.whisper.jsonOk = false →
       (captionHandler clk env2 fs (ReqBody.json (some url)) audioOnly true).res =
         genericErrorResult) ∧
    (∀ (env2 : CapEnv) (body : ReqBody) (audioOnly2 : Bool) (s : Nat) (b : ErrBody),
       (captionHandler clk env2 fs body audioOnly2 true).res = CapResult.err s b →
       s ≠ 408 → b.debugBlock = none) := by
  have h1 : whisperCall env.whisper whisperTimeoutMs = WhisperOutcome.timeoutErr ∨
      whisperCall env.whisper whisperTimeoutMs = WhisperOutcome.abortErr := by
    unfold whisperCall
    cases env.whisper.timeoutKind <;> simp [hlate]
  refine ⟨?_, ?_, ?_, ?_, ?_, ?_, ?_, ?_⟩
  · rcases h1 with h1 | h1 <;>
      simp [captionHandler, hu, getVideoInfo, hOk, hCode, hdl, h1, CapResult.status]
  · rcases h1 with h1 | h1 <;>
      simp [captionHandler, hu, getVideoInfo, hOk, hCode, hdl, h1,
        CapResult.debugOfErr, timeoutBody, abortBody]
  · simp [errDebugInfo, hTr]
  · intro env2 h2
    simp [captionHandler, hu, getVideoInfo, h2]
  · intro env2 h2
    cases hOk2 : env2.info.respOk <;>
      simp [captionHandler, hu, getVideoInfo, hOk2, h2]
  · intro env2 hOk2 hCode2 e hdlErr
    simp [captionHandler, hu, getVideoInfo, hOk2, hCode2, hdlErr]
  · intro env2 media2 hOk2 hCode2 hdl2 hontime hwok hjson
    have hwc : whisperCall env2.whisper whisperTimeoutMs =
        WhisperOutcome.resp true env2.whisper.bodyText false env2.whisper.caption := by
      unfold whisperCall
      rw [if_neg (by omega), hwok, hjson]
    simp [captionHandler, hu, getVideoInfo, hOk2, hCode2, hdl2, hwc]
  · intro env2 body audioOnly2 s b hres hs
    cases body with
    | malformed => simp [captionHandler] at hres
    | json urlOpt =>
      cases hval : urlMissingOrInvalid urlOpt with
      | true =>
        simp only [captionHandler, hval, if_true] at hres
        rw [CapResult.err.injEq] at hres
        rw [← hres.2]
        rfl
      | false =>
        simp only [captionHandler, hval, Bool.false_eq_true, if_false] at hres
        rcases hgv : getVideoInfo env2.info (urlOpt.getD "") with ⟨res, evs⟩
        rw [hgv] at hres
        cases res with
        | error e =>
          simp only [genericErrorResult, CapResult.err.injEq] at hres
          rw [← hres.2]
        | ok metadata =>
          rcases hdl2 : (downloadMedia env2.dl fs (urlOpt.getD "") audioOnly2).res with e | media2
          · rw [hdl2] at hres
            simp only [genericErrorResult, CapResult.err.injEq] at hres
            rw [← hres.2]
          · rw [hdl2] at hres
            rcases hwc : whisperCall env2.whisper whisperTimeoutMs with _ | _ |
                ⟨respOk2, bodyText2, jsonOk2, caption2⟩
            · rw [hwc] at hres
              simp only [CapResult.err.injEq] at hres
              exact absurd hres.1.symm hs
            · rw [hwc] at hres
              simp only [CapResult.err.injEq] at hres
              exact absurd hres.1.symm hs
            · rw [hwc] at hres
              cases respOk2 with
              | false =>
                simp only [Bool.not_false, if_true, CapResult.err.injEq] at hres
                rw [← hres.2]
              | true =>
                cases jsonOk2 with
                | false =>
                  simp only [Bool.not_true, Bool.not_false, Bool.false_eq_true, if_false,
                    if_true, genericErrorResult, CapResult.err.injEq] at hres
                  rw [← hres.2]
                | true => simp at hres

/-- C6: on a successful /caption request with `debug=true` whose phase
durations and total are all zero (a clock frozen at one instant), every
derived metric is still a defined value — JavaScript division never traps;
with nonzero byte count and media duration the two throughput figures
evaluate to the IEEE positive infinity and the three percentage-breakdown
figures to NaN, and the 200 response is assembled normally around them. -/
theorem caption_debug_zero_duration_defined
    (env : CapEnv) (fs : CacheFs) (url : String) (audioOnly : Bool) (c : Nat)
    (media : DlOk)
    (hu : urlMissingOrInvalid (some url) = false)
    (hOk : env.info.respOk = true) (hCode : env.info.code = 0)
    (hdl : (downloadMedia env.dl fs url audioOnly).res = Except.ok media)
    (hontime : env.whisper.delayMs < whisperTimeoutMs)
    (hwok : env.whisper.respOk = true) (hwjson : env.whisper.jsonOk = true)
    (hbytes : media.buffer.length ≠ 0) (hdur : env.info.data.duration ≠ 0) :
    (captionHandler (constClock c) env fs (ReqBody.json (some url)) audioOnly true).res.successDebug =
      some (mkDebugBlock media.buffer.length env.info.data.duration audioOnly 0 0 0 0) ∧
    (mkDebugBlock media.buffer.length env.info.data.duration audioOnly 0 0 0 0).downloadSpeed =
      JsNum.posInf ∧
    (mkDebugBlock media.buffer.length env.info.data.duration audioOnly 0 0 0 0).transcriptionSpeed =
      JsNum.posInf ∧
    (mkDebugBlock media.buffer.length env.info.data.duration audioOnly 0 0 0 0).breakdownMetadata =
      JsNum.nan ∧
    (mkDebugBlock media.buffer.length env.info.data.duration audioOnly 0 0 0 0).breakdownDownload =
      JsNum.nan ∧
    (mkDebugBlock media.buffer.length env.info.data.duration audioOnly 0 0 0 0).breakdownTranscription =
      JsNum.nan := by
  have hb : (0 : ℚ) < (media.buffer.length : ℚ) := by
    exact_mod_cast Nat.pos_of_ne_zero hbytes
  have hd : (0 : ℚ) < (env.info.data.duration : ℚ) := by
    exact_mod_cast Nat.pos_of_ne_zero hdur
  have hwc : whisperCall env.whisper whisperTimeoutMs =
      WhisperOutcome.resp true env.whisper.bodyText true env.whisper.caption := by
    unfold whisperCall
    rw [if_neg (by omega), hwok, hwjson]
  refine ⟨?_, ?_, ?_, ?_, ?_, ?_⟩
  · simp [captionHandler, hu, getVideoInfo, hOk, hCode, hdl, hwc, successResp,
      constClock, CapResult.successDebug, sub_self]
  · norm_num [mkDebugBlock, jsDiv, hb, hb.ne']
  · norm_num [mkDebugBlock, jsDiv, hd, hd.ne']
  · norm_num [mkDebugBlock, jsDiv, jsMul]
  · norm_num [mkDebugBlock, jsDiv, jsMul]
  · norm_num [mkDebugBlock, jsDiv, jsMul]

def c7DlEnv : DlEnv :=
  { info := okExtraction, fetchOk := true, fetchStatus := 200, fetchBody := [9],
    faults := { accessFault := false, readFault := true, writeFault := false } }

def c7Fs : CacheFs := [(getCacheKey goodUrl ++ ".mp4", [7, 7])]

/-- C7 counterexample: the cache file exists (access succeeds) but reading
it fails; the catch-all treats this exactly like a miss — the pipeline
proceeds to a fresh download (outbound calls made, `cached = false`) and no
`CacheReadFailed`-style error is surfaced, refuting the claim that
non-existence is the only condition reported as a miss. -/
theorem cacheReadFailed_counterexample :
    (downloadMedia c7DlEnv c7Fs goodUrl false).res =
      Except.ok
        { buffer := [9], filename := "tiktok_" ++ getCacheKey goodUrl ++ ".mp4",
          contentType := "video/mp4", cached := false } ∧
    (downloadMedia c7DlEnv c7Fs goodUrl false).events =
      [Event.extractionCall goodUrl, Event.mediaDownloadCall "https://cdn/hd"] := by
  constructor <;> rfl

/-- C7 (amended): the cache `get` step returns absent — and the pipeline
proceeds with a download — not only when the cached file does not exist but
also on EVERY other I/O error during the existence check or the read of an
existing file; the catch-all swallows them all, and no read error is ever
surfaced.  On a healthy filesystem an existing entry is served as a hit
with zero outbound calls. -/
theorem cache_get_any_error_is_miss
    (env : DlEnv) (fs : CacheFs) (url : String) (audioOnly : Bool) :
    (∀ b, cacheLookup fs (getCacheKey url ++ "." ++ (if audioOnly then "mp3" else "mp4")) =
        some b →
      env.faults.accessFault = false → env.faults.readFault = false →
      (downloadMedia env fs url audioOnly).res =
        Except.ok
          { buffer := b,
            filename := "tiktok_" ++ getCacheKey url ++ "." ++ (if audioOnly then "mp3" else "mp4"),
            contentType := if audioOnly then "audio/mp3" else "video/mp4",
            cached := true } ∧
      (downloadMedia env fs url audioOnly).events = []) ∧
    (cacheLookup fs (getCacheKey url ++ "." ++ (if audioOnly then "mp3" else "mp4")) = none →
      (downloadMedia env fs url audioOnly).events.head? =
        some (Event.extractionCall url)) ∧
    ((env.faults.accessFault = true ∨ env.faults.readFault = true) →
      (downloadMedia env fs url audioOnly).events.head? =
        some (Event.extractionCall url) ∧
      ∀ r, (downloadMedia env fs url audioOnly).res = Except.ok r → r.cached = false) := by
  refine ⟨?_, ?_, ?_⟩
  · intro b hl ha hr
    rw [downloadMedia_hit env fs url audioOnly b ha hr hl]
    exact ⟨rfl, rfl⟩
  · intro hl
    cases hfault : (env.faults.accessFault || env.faults.readFault) <;>
      cases hOk : env.info.respOk <;>
        by_cases hCode : env.info.code = 0 <;>
          by_cases hsel : chooseDownloadUrl env.info.data audioOnly = "" <;>
            cases hfk : env.fetchOk <;>
              simp [downloadMedia, hfault, hl, getVideoInfo, hOk, hCode, hsel, hfk]
  · intro hf
    have hfault : (env.faults.accessFault || env.faults.readFault) = true := by
      rcases hf with hf | hf <;> simp [hf]
    constructor
    · cases hOk : env.info.respOk <;>
        by_cases hCode : env.info.code = 0 <;>
          by_cases hsel : chooseDownloadUrl env.info.data audioOnly = "" <;>
            cases hfk : env.fetchOk <;>
              simp [downloadMedia, hfault, getVideoInfo, hOk, hCode, hsel, hfk]
    · intro r hr
      cases hOk : env.info.respOk <;>
        by_cases hCode : env.info.code = 0 <;>
          by_cases hsel : chooseDownloadUrl env.info.data audioOnly = "" <;>
            cases hfk : env.fetchOk <;>
              simp [downloadMedia, hfault, getVideoInfo, hOk, hCode, hsel, hfk] at hr <;>
                simp [← hr]

/-- C8: a failure of the best-effort cache write never fails the request:
the result and the outbound-call trace of `downloadMedia` are bit-identical
whether the cache write succeeds or fails, and on a successful fresh
download with a failing write the bytes are still returned with
`cached = false`, the cache directory is left unchanged, and the only trace
of the failure is the diagnostic log line. -/
theorem cache_write_failure_harmless
    (env : DlEnv) (fs : CacheFs) (url : String) (audioOnly : Bool) :
    (downloadMedia { env with faults := { env.faults with writeFault := true } }
        fs url audioOnly).res =
      (downloadMedia { env with faults := { env.faults with writeFault := false } }
        fs url audioOnly).res ∧
    (downloadMedia { env with faults := { env.faults with writeFault := true } }
        fs url audioOnly).events =
      (downloadMedia { env with faults := { env.faults with writeFault := false } }
        fs url audioOnly).events ∧
    (cacheLookup fs (getCacheKey url ++ "." ++ (if audioOnly then "mp3" else "mp4")) = none →
      env.info.respOk = true → env.info.code = 0 →
      chooseDownloadUrl env.info.data audioOnly ≠ "" → env.fetchOk = true →
      (downloadMedia { env with faults := { env.faults with writeFault := true } }
          fs url audioOnly).res =
        Except.ok
          { buffer := env.fetchBody,
            filename := "tiktok_" ++ getCacheKey url ++ "." ++ (if audioOnly then "mp3" else "mp4"),
            contentType := if audioOnly then "audio/mp3" else "video/mp4",
            cached := false } ∧
      (downloadMedia { env with faults := { env.faults with writeFault := true } }
          fs url audioOnly).fs = fs ∧
      (downloadMedia { env with faults := { env.faults with writeFault := true } }
          fs url audioOnly).logs = [LogLine.failedToSaveToCache]) := by
  refine ⟨?_, ?_, ?_⟩
  · cases hfault : (env.faults.accessFault || env.faults.readFault) <;>
      cases hlk : cacheLookup fs (getCacheKey url ++ "." ++ (if audioOnly then "mp3" else "mp4")) <;>
        cases hOk : env.info.respOk <;>
          by_cases hCode : env.info.code = 0 <;>
            by_cases hsel : chooseDownloadUrl env.info.data audioOnly = "" <;>
              cases hfk : env.fetchOk <;>
                simp [downloadMedia, hfault, hlk, getVideoInfo, hOk, hCode, hsel, hfk]
  · cases hfault : (env.faults.accessFault || env.faults.readFault) <;>
      cases hlk : cacheLookup fs (getCacheKey url ++ "." ++ (if audioOnly then "mp3" else "mp4")) <;>
        cases hOk : env.info.respOk <;>
          by_cases hCode : env.info.code = 0 <;>
            by_cases hsel : chooseDownloadUrl env.info.data audioOnly = "" <;>
              cases hfk : env.fetchOk <;>
                simp [downloadMedia, hfault, hlk, getVideoInfo, hOk, hCode, hsel, hfk]
  · intro hlk hOk hCode hsel hfk
    cases hfault : (env.faults.accessFault || env.faults.readFault) <;>
      refine ⟨?_, ?_, ?_⟩ <;>
        simp [downloadMedia, hfault, hlk, getVideoInfo, hOk, hCode, hsel, hfk]

/-- Witness for C1 at concrete inputs: `"not-a-url"` is rejected with 400
and an empty trace; `goodUrl` passes validation and the first outbound call
is its extraction call. -/
theorem url_validation_gate_witness :
    captionHandler clkSample okCapEnv [] (ReqBody.json (some "not-a-url")) false false =
      { res := CapResult.err 400 invalidUrlBody, fs := [], events := [], logs := [] } ∧
    (captionHandler clkSample okCapEnv [] (ReqBody.json (some goodUrl)) false false).events.head? =
      some (Event.extractionCall ((some goodUrl).getD "")) := by
  constructor
  · exact ((url_validation_gate clkSample okCapEnv okExtraction []
      (some "not-a-url") false false false).1 (by decide)).1
  · exact ((url_validation_gate clkSample okCapEnv okExtraction []
      (some goodUrl) false false false).2 (by decide)).1

/-- Witness for C2: a worker exceeding the bound yields 408; a worker
answering in time with a non-success status yields 500 with its body. -/
theorem transcription_timeout_vs_failure_witness :
    (captionHandler clkSample lateCapEnv [] (ReqBody.json (some goodUrl)) false false).res.status =
      some 408 ∧
    (captionHandler clkSample badWhisperCapEnv [] (ReqBody.json (some goodUrl)) false false).res =
      CapResult.err 500
        { error := "Transcription service failed.", details := some "boom",
          debugBlock := none } := by
  constructor
  · exact ((transcription_timeout_vs_failure clkSample lateCapEnv [] goodUrl false false
      mediaSample (by decide) rfl rfl rfl).2.1 (by decide)).2
  · exact (transcription_timeout_vs_failure clkSample badWhisperCapEnv [] goodUrl false false
      mediaSample (by decide) rfl rfl rfl).2.2 (by decide) rfl

/-- Witness for C3: after a first fresh download of `goodUrl`, a second
call returns the same bytes from the cache with `cached = true` and no
outbound call. -/
theorem fetchBytes_cache_idempotent_witness :
    downloadMedia okDlEnv (downloadMedia okDlEnv [] goodUrl false).fs goodUrl false =
      { res := Except.ok
          { buffer := mediaSample.buffer, filename := mediaSample.filename,
            contentType := mediaSample.contentType, cached := true },
        fs := (downloadMedia okDlEnv [] goodUrl false).fs,
        events := [], logs := [LogLine.foundCached] } :=
  fetchBytes_cache_idempotent okDlEnv okDlEnv [] goodUrl false mediaSample
    rfl rfl rfl rfl

/-- Witness for C4: empty metadata fails with `NoDownloadUrl`, a 403 fetch
fails with `DownloadFailed 403`, and a normal run downloads the
high-definition URL. -/
theorem downloadMedia_selection_and_failures_witness :
    (downloadMedia noUrlDlEnv [] goodUrl false).res = Except.error DlError.noDownloadUrl ∧
    (downloadMedia fetchFailDlEnv [] goodUrl false).res =
      Except.error (DlError.downloadFailed 403) ∧
    (downloadMedia okDlEnv [] goodUrl false).events =
      [Event.extractionCall goodUrl, Event.mediaDownloadCall "https://cdn/hd"] := by
  refine ⟨?_, ?_, ?_⟩
  · exact ((downloadMedia_selection_and_failures noUrlDlEnv [] goodUrl false
      rfl rfl rfl).2.1 (by decide)).1
  · exact ((downloadMedia_selection_and_failures fetchFailDlEnv [] goodUrl false
      rfl rfl rfl).2.2.1 (by decide) rfl).1
  · exact ((downloadMedia_selection_and_failures okDlEnv [] goodUrl false
      rfl rfl rfl).2.2.2 (by decide) rfl).2

/-- Witness for C5 (amended): the 408 timeout response with `debug=true`
carries the partial timing and `failedAt = "transcription"`. -/
theorem caption_error_debug_only_on_timeout_witness :
    (captionHandler clkSample lateCapEnv [] (ReqBody.json (some goodUrl)) false true).res.debugOfErr =
      some (errDebugInfo
        { start := 100, metadataStart := 110, metadataEnd := 120, downloadStart := 130,
          downloadEnd := 140, transcribeStart := 150, transcribeEnd := 0 } 170) ∧
    (errDebugInfo
        { start := 100, metadataStart := 110, metadataEnd := 120, downloadStart := 130,
          downloadEnd := 140, transcribeStart := 150, transcribeEnd := 0 } 170).failedAt =
      "transcription" := by
  constructor
  · exact (caption_error_debug_only_on_timeout clkSample lateCapEnv [] goodUrl false
      mediaSample (by decide) rfl rfl rfl (by decide) (by decide)).2.1
  · exact (caption_error_debug_only_on_timeout clkSample lateCapEnv [] goodUrl false
      mediaSample (by decide) rfl rfl rfl (by decide) (by decide)).2.2.1

/-- Witness for C6: with a frozen clock every duration is zero and the
debug block evaluates to defined infinity/NaN values inside a normal 200
response. -/
theorem caption_debug_zero_duration_defined_witness :
    (captionHandler (constClock 5) okCapEnv [] (ReqBody.json (some goodUrl)) false true).res.successDebug =
      some (mkDebugBlock 3 30 false 0 0 0 0) ∧
    (mkDebugBlock 3 30 false 0 0 0 0).downloadSpeed = JsNum.posInf ∧
    (mkDebugBlock 3 30 false 0 0 0 0).breakdownMetadata = JsNum.nan := by
  have h := caption_debug_zero_duration_defined okCapEnv [] goodUrl false 5 mediaSample
    (by decide) rfl rfl rfl (by decide) rfl rfl (by decide) (by decide)
  exact ⟨h.1, h.2.1, h.2.2.2.1⟩

/-- Witness for C7 (amended): a present entry on a healthy filesystem is a
hit; the same cache with an injected read fault behaves as a miss and the
pipeline makes its outbound extraction call. -/
theorem cache_get_any_error_is_miss_witness :
    (downloadMedia okDlEnv c7Fs goodUrl false).res =
      Except.ok
        { buffer := [7, 7],
          filename := "tiktok_" ++ getCacheKey goodUrl ++ "." ++ (if false then "mp3" else "mp4"),
          contentType := if false then "audio/mp3" else "video/mp4",
          cached := true } ∧
    (downloadMedia c7DlEnv c7Fs goodUrl false).events.head? =
      some (Event.extractionCall goodUrl) := by
  constructor
  · exact ((cache_get_any_error_is_miss okDlEnv c7Fs goodUrl false).1 [7, 7]
      (by decide) rfl rfl).1
  · exact ((cache_get_any_error_is_miss c7DlEnv c7Fs goodUrl false).2.2 (Or.inr rfl)).1

/-- Witness for C8: with the cache write failing, the fresh download still
returns its bytes with `cached = false`, the cache stays empty, and only
the diagnostic log line records the failure. -/
theorem cache_write_failure_harmless_witness :
    (downloadMedia { okDlEnv with faults := ⟨false, false, true⟩ } [] goodUrl false).res =
      (downloadMedia okDlEnv [] goodUrl false).res ∧
    (downloadMedia { okDlEnv with faults := ⟨false, false, true⟩ } [] goodUrl false).fs = [] ∧
    (downloadMedia { okDlEnv with faults := ⟨false, false, true⟩ } [] goodUrl false).logs =
      [LogLine.failedToSaveToCache] := by
  have h := cache_write_failure_harmless okDlEnv [] goodUrl false
  exact ⟨h.1, (h.2.2 rfl rfl rfl (by decide) rfl).2.1, (h.2.2 rfl rfl rfl (by decide) rfl).2.2⟩

end TiktokExtract
